import Mathlib

/-!
Shallow embedding of the notebook
`scripts/single_limited_channel/notebooks/03_Single_Multi_Unit_Activity_Analysis.ipynb`.

The notebook defines seven functions — `load_data`, `preprocess_data`,
`sort_spikes`, `postprocess_sorting`, `extract_features`, `cluster_spikes`,
`plot_cluster_features` — each a thin wrapper around external-library calls
(neo, spikeinterface, sklearn, numpy, plotly).  External calls are modelled by
an environment record `Env` whose operations return `Except PyErr α`:
a Python exception either propagates (`Except.error`) or yields a value
(`Except.ok`).  External data objects (readers, recordings, sortings,
waveform extractors, figures) are opaque handles; the ones the spy
environment observes carry a log of the calls that produced them, so that
parameter pass-through can be stated as a theorem.  Numeric parameters are
rationals (idealised Python floats); numpy reductions that the notebook
computes (`np.mean(np.abs(...))`, `np.std`, `np.column_stack`) are embedded
as exact rational arithmetic, with the square root inside `np.std` supplied
by the environment.
-/

/-- A Python exception: its type name and its message. -/
structure PyErr where
  typ : String
  msg : String
deriving DecidableEq, Repr

/-- Result of a Python call: a value, or a propagating exception. -/
abbrev Res (α : Type) := Except PyErr α

/-- An opaque handle to a neo reader object (`NeuralynxIO(...)` etc.). -/
structure Reader where
  tag : String
  path : String
deriving DecidableEq, Repr

/-- An opaque handle to a neo `AnalogSignal`. -/
structure AnalogSignal where
  sid : Nat
deriving DecidableEq, Repr

/-- A neo `Segment`: holds its list of analog signals. -/
structure Segment where
  analogsignals : List AnalogSignal
deriving DecidableEq, Repr

/-- A neo `Block`: holds its list of segments. -/
structure Block where
  segments : List Segment
deriving DecidableEq, Repr

/-- A sorter parameter dictionary (`custom_params`), as key/value pairs. -/
abbrev Params := List (String × Rat)

/-- One external call as observed by the spy environment. -/
inductive Call where
  | bandpass (freq_min freq_max : Rat)
  | notch (freq : Rat)
  | common_ref (reference : String)
  | neo_extract (sig : AnalogSignal)
  | run_sorter (sorter_name output_folder : String) (rec_id : Nat) (ps : Params)
  | we_create (rec_id srt_id : Nat) (folder : String) (remove_existing : Bool)
  | we_set_params (ms_before ms_after : Rat)
  | we_run
deriving DecidableEq, Repr

/-- An opaque handle to a SpikeInterface recording; `rid` identifies it and
`log` records, for the spy environment, the external calls that built it. -/
structure Recording where
  rid : Nat := 0
  log : List Call := []
deriving DecidableEq, Repr

/-- An opaque handle to a SpikeInterface sorting. -/
structure Sorting where
  sid : Nat := 0
  log : List Call := []
deriving DecidableEq, Repr

/-- An opaque handle to a SpikeInterface `WaveformExtractor`. -/
structure WaveformExtractor where
  wid : Nat := 0
  log : List Call := []
deriving DecidableEq, Repr

/-- An opaque handle to a plotly figure. -/
structure Fig where
  fid : Nat
deriving DecidableEq, Repr

/-- Waveforms as returned by `get_waveforms()`: one matrix
(samples × channels) per spike. -/
abbrev Waveforms := List (List (List Rat))

/-- A feature matrix: one row of rationals per spike. -/
abbrev FeatureMatrix := List (List Rat)

/-- Keyword arguments (`**kwargs`) with rational values. -/
abbrev KwArgs := List (String × Rat)

/-- The external-library surface the notebook calls into.  Every operation may
raise (return `Except.error`), exactly as the Python call may. -/
structure Env where
  neuralynx_io : String → Res Reader
  blackrock_io : String → Res Reader
  nix_io : String → Res Reader
  read_block : Reader → Res Block
  neo_recording_extractor : AnalogSignal → Res Recording
  bandpass_filter : Recording → Rat → Rat → Res Recording
  notch_filter : Recording → Rat → Res Recording
  common_reference : Recording → String → Res Recording
  get_default_params : String → Res Params
  run_sorter : String → Recording → String → Params → Res Sorting
  we_create : Recording → Sorting → String → Bool → Res WaveformExtractor
  we_set_params : WaveformExtractor → Rat → Rat → Res WaveformExtractor
  we_run : WaveformExtractor → Res WaveformExtractor
  get_waveforms : WaveformExtractor → Res Waveforms
  pca_fit_transform : Nat → FeatureMatrix → Res FeatureMatrix
  np_sqrt : Rat → Rat
  gmm_fit_predict : Rat → FeatureMatrix → Res (List Int)
  dbscan_fit_predict : Rat → Rat → FeatureMatrix → Res (List Int)
  agglomerative_fit_predict : Rat → FeatureMatrix → Res (List Int)
  px_scatter : List Rat → List Rat → List Int → Res Fig
  update_layout : Fig → String → String → String → Res Fig
  fig_show : Fig → Res Unit

/-- Python list indexing `xs[i]`: raises `IndexError` when out of range. -/
def pyIndex {α : Type} (xs : List α) (i : Nat) : Res α :=
  match xs.get? i with
  | some x => Except.ok x
  | none => Except.error ⟨"IndexError", "list index out of range"⟩

/-- Python truthiness of an optional dict (`if custom_params`): `None` and the
empty dict are falsy. -/
def dictTruthy (d : Option Params) : Bool :=
  match d with
  | none => false
  | some ps => !ps.isEmpty

/-- Python truthiness of an optional number (`if notch_freq`): `None` and `0`
are falsy. -/
def numTruthy (x : Option Rat) : Bool :=
  match x with
  | none => false
  | some q => !(q == 0)

/-- Python `kwargs.get(key, default)`. -/
def kwGet (kwargs : KwArgs) (key : String) (default : Rat) : Rat :=
  match kwargs.lookup key with
  | some v => v
  | none => default

/-- Embedding of `load_data(file_path, io_type='NeuralynxIO')`.  The `io_types` dict literal
evaluates all three neo constructors eagerly, before `io_type` is looked up;
an unknown `io_type` then raises
`ValueError(f"Unsupported IO type: {io_type}")`. -/
def load_data (env : Env) (file_path : String) (io_type : String) : Res Recording := do
  let nlx ← env.neuralynx_io file_path
  let brk ← env.blackrock_io file_path
  let nix ← env.nix_io file_path
  let io_types : List (String × Reader) :=
    [("NeuralynxIO", nlx), ("BlackrockIO", brk), ("NixIO", nix)]
  match io_types.lookup io_type with
  | none => Except.error ⟨"ValueError", "Unsupported IO type: " ++ io_type⟩
  | some reader => do
      let block ← env.read_block reader
      let segment ← pyIndex block.segments 0
      let analog_signal ← pyIndex segment.analogsignals 0
      env.neo_recording_extractor analog_signal

/-- Embedding of `preprocess_data(recording, freq_min=300, freq_max=3000, notch_freq=None,
common_ref_type='median')`: bandpass, optional notch (skipped when
`notch_freq` is falsy), then common reference. -/
def preprocess_data (env : Env) (recording : Recording) (freq_min freq_max : Rat)
    (notch_freq : Option Rat) (common_ref_type : String) : Res Recording := do
  let recording_bp ← env.bandpass_filter recording freq_min freq_max
  let recording_notch ←
    if numTruthy notch_freq then
      env.notch_filter recording_bp (notch_freq.getD 0)
    else
      Except.ok recording_bp
  env.common_reference recording_notch common_ref_type

/-- Embedding of `sort_spikes(recording, sorter_name='kilosort2', custom_params=None)`:
`sorter_params = custom_params if custom_params else
ss.get_default_params(sorter_name)`, then
`ss.run_sorter(sorter_name, recording, output_folder='sorting_output',
**sorter_params)`. -/
def sort_spikes (env : Env) (recording : Recording) (sorter_name : String)
    (custom_params : Option Params) : Res Sorting := do
  let sorter_params ←
    if dictTruthy custom_params then
      Except.ok (custom_params.getD [])
    else
      env.get_default_params sorter_name
  env.run_sorter sorter_name recording "sorting_output" sorter_params

/-- Embedding of `postprocess_sorting(sorting, recording)`: `WaveformExtractor.create(...)`,
`set_params(ms_before=1.5, ms_after=2.5)`, `run()`; the in-place mutations are
modelled by state passing. -/
def postprocess_sorting (env : Env) (sorting : Sorting) (recording : Recording) :
    Res WaveformExtractor := do
  let waveform_extractor ← env.we_create recording sorting "waveforms" true
  let waveform_extractor ← env.we_set_params waveform_extractor (3/2 : Rat) (5/2 : Rat)
  let waveform_extractor ← env.we_run waveform_extractor
  Except.ok waveform_extractor

/-- The value `np.mean(np.abs(m))` over all entries of one spike's matrix. -/
def np_mean_abs_spike (m : List (List Rat)) : Rat :=
  let entries := m.flatten
  (entries.map (fun x => |x|)).sum / entries.length

/-- The variance of all entries of one spike's matrix
(`np.std` squared, population convention). -/
def np_var_spike (m : List (List Rat)) : Rat :=
  let entries := m.flatten
  let mu := entries.sum / entries.length
  (entries.map (fun x => (x - mu) ^ 2)).sum / entries.length

/-- The value `np.std` computes on one spike's matrix: the square root (supplied by
the environment) of the variance. -/
def np_std_spike (env : Env) (m : List (List Rat)) : Rat :=
  env.np_sqrt (np_var_spike m)

/-- The matrix `np.column_stack((a, b))` for two equal-length vectors. -/
def np_column_stack (a b : List Rat) : FeatureMatrix :=
  List.zipWith (fun x y => [x, y]) a b

/-- The reshape `waveforms.reshape(waveforms.shape[0], -1)`: flatten each spike's matrix. -/
def np_reshape_flat (w : Waveforms) : FeatureMatrix :=
  w.map List.flatten

/-- Embedding of `extract_features(waveform_extractor, method='pca', n_components=3)`:
PCA on the flattened waveforms when `method == 'pca'`; otherwise the
two-column matrix of per-spike mean absolute value and standard deviation.
No selector validation. -/
def extract_features (env : Env) (waveform_extractor : WaveformExtractor)
    (method : String) (n_components : Nat) : Res FeatureMatrix := do
  let waveforms ← env.get_waveforms waveform_extractor
  if method == "pca" then
    env.pca_fit_transform n_components (np_reshape_flat waveforms)
  else
    let spike_width := waveforms.map np_mean_abs_spike
    let spike_amplitude := waveforms.map (np_std_spike env)
    Except.ok (np_column_stack spike_width spike_amplitude)

/-- Embedding of `cluster_spikes(features, method='gmm', **kwargs)`: dispatch to GMM,
DBSCAN or agglomerative clustering with `kwargs.get` defaults; any other
method raises `ValueError(f"Unsupported clustering method: {method}")`. -/
def cluster_spikes (env : Env) (features : FeatureMatrix) (method : String)
    (kwargs : KwArgs) : Res (List Int) :=
  if method == "gmm" then
    env.gmm_fit_predict (kwGet kwargs "n_components" 3) features
  else if method == "dbscan" then
    env.dbscan_fit_predict (kwGet kwargs "eps" (1/2)) (kwGet kwargs "min_samples" 5) features
  else if method == "agglomerative" then
    env.agglomerative_fit_predict (kwGet kwargs "n_clusters" 3) features
  else
    Except.error ⟨"ValueError", "Unsupported clustering method: " ++ method⟩

/-- Column `j` of a feature matrix (`features[:, j]`). -/
def npCol (features : FeatureMatrix) (j : Nat) : List Rat :=
  features.map (fun row => row.getD j 0)

/-- Embedding of `plot_cluster_features(features, labels)`: `px.scatter`, `update_layout`,
`fig.show()`; returns `None`. -/
def plot_cluster_features (env : Env) (features : FeatureMatrix) (labels : List Int) :
    Res Unit := do
  let fig ← env.px_scatter (npCol features 0) (npCol features 1) labels
  let fig ← env.update_layout fig "Spike Clustering" "Feature 1" "Feature 2"
  env.fig_show fig

/-- The notebook's example-usage chain, with the notebook's default arguments
spelled out. -/
def pipeline (env : Env) : Res Unit := do
  let recording ← load_data env "data/sample_data" "NeuralynxIO"
  let recording_preprocessed ← preprocess_data env recording 300 3000 none "median"
  let sorting ← sort_spikes env recording_preprocessed "kilosort2" none
  let waveform_extractor ← postprocess_sorting env sorting recording_preprocessed
  let features ← extract_features env waveform_extractor "pca" 3
  let labels ← cluster_spikes env features "gmm" []
  plot_cluster_features env features labels

/-- An environment in which every external call succeeds with a fixed,
well-formed value. -/
def benignEnv : Env where
  neuralynx_io := fun p => Except.ok ⟨"NeuralynxIO", p⟩
  blackrock_io := fun p => Except.ok ⟨"BlackrockIO", p⟩
  nix_io := fun p => Except.ok ⟨"NixIO", p⟩
  read_block := fun _ => Except.ok ⟨[⟨[⟨0⟩]⟩]⟩
  neo_recording_extractor := fun sig => Except.ok ⟨0, [Call.neo_extract sig]⟩
  bandpass_filter := fun r a b => Except.ok ⟨r.rid, r.log ++ [Call.bandpass a b]⟩
  notch_filter := fun r f => Except.ok ⟨r.rid, r.log ++ [Call.notch f]⟩
  common_reference := fun r t => Except.ok ⟨r.rid, r.log ++ [Call.common_ref t]⟩
  get_default_params := fun name => Except.ok [(name ++ ".default", 1)]
  run_sorter := fun name r folder ps => Except.ok ⟨0, [Call.run_sorter name folder r.rid ps]⟩
  we_create := fun r s folder rm => Except.ok ⟨0, [Call.we_create r.rid s.sid folder rm]⟩
  we_set_params := fun w a b => Except.ok ⟨w.wid, w.log ++ [Call.we_set_params a b]⟩
  we_run := fun w => Except.ok ⟨w.wid, w.log ++ [Call.we_run]⟩
  get_waveforms := fun _ => Except.ok [[[1, 2], [3, 4]], [[0, 2], [0, 2]]]
  pca_fit_transform := fun _ m => Except.ok m
  np_sqrt := fun q => q
  gmm_fit_predict := fun _ m => Except.ok (List.replicate m.length 0)
  dbscan_fit_predict := fun _ _ m => Except.ok (List.replicate m.length 0)
  agglomerative_fit_predict := fun _ m => Except.ok (List.replicate m.length 0)
  px_scatter := fun _ _ _ => Except.ok ⟨0⟩
  update_layout := fun f _ _ _ => Except.ok f
  fig_show := fun _ => Except.ok ()

/-- The string `s` contains `sub` as a substring. -/
def strContains (s sub : String) : Prop :=
  ∃ a b : String, s = a ++ sub ++ b

/-- A sample exception some external library raises. -/
def boom : PyErr := ⟨"RuntimeError", "library failure"⟩

/-! ### Dataflow of the example-usage chain

`pipelineStages` transcribes the notebook's example-usage lines: which values
each call consumes and which variable its result is bound to. -/

/-- One example-usage call: its function name, the variables it consumes, and
the variable its result is bound to (if any). -/
structure Stage where
  name : String
  inputs : List String
  output : Option String
deriving DecidableEq, Repr

/-- The notebook's example-usage chain, call by call. -/
def pipelineStages : List Stage :=
  [⟨"load_data", ["example_file_path"], some "recording"⟩,
   ⟨"preprocess_data", ["recording"], some "recording_preprocessed"⟩,
   ⟨"sort_spikes", ["recording_preprocessed"], some "sorting"⟩,
   ⟨"postprocess_sorting", ["sorting", "recording_preprocessed"], some "waveform_extractor"⟩,
   ⟨"extract_features", ["waveform_extractor"], some "features"⟩,
   ⟨"cluster_spikes", ["features"], some "labels"⟩,
   ⟨"plot_cluster_features", ["features", "labels"], none⟩]

/-- The six stage names of the spec's claimed chain, in the spec's order. -/
def specStageNames : List String :=
  ["load_data", "preprocess_data", "sort_spikes", "extract_features",
   "cluster_spikes", "plot_cluster_features"]

/-- Every stage hands exactly its return value to the next stage: each stage
after the first consumes precisely the previous stage's output. -/
def linearHandoff : List Stage → Bool
  | s :: t :: rest =>
      (match s.output with
        | some o => t.inputs == [o]
        | none => false) && linearHandoff (t :: rest)
  | _ => true

/-- The spec's pipeline shape, stated from the spec's words: the stages are
exactly the six named ones in order, and each passes its return value
unchanged as the (sole) input of the next. -/
def specLinearPipeline (stages : List Stage) : Prop :=
  stages.map Stage.name = specStageNames ∧ linearHandoff stages = true

/-- Sequential dataflow: each stage consumes only values already available
(the initial ones or outputs of earlier stages). -/
def seqDataflow : List Stage → List String → Bool
  | [], _ => true
  | s :: rest, avail =>
      s.inputs.all (fun i => avail.contains i) &&
      seqDataflow rest
        (avail ++ (match s.output with | some o => [o] | none => []))

/-- Like `linearHandoff`, but stages named in `exempt` may consume more than the
previous stage's output. -/
def handoffExcept (exempt : List String) : List Stage → Bool
  | s :: t :: rest =>
      (exempt.contains t.name ||
        (match s.output with
          | some o => t.inputs == [o]
          | none => false)) && handoffExcept exempt (t :: rest)
  | _ => true

/-! ## Helper lemmas -/

@[simp]
theorem res_bind_ok {α β : Type} (a : α) (f : α → Res β) :
    ((Except.ok a : Res α) >>= f) = f a := rfl

@[simp]
theorem res_bind_err {α β : Type} (e : PyErr) (f : α → Res β) :
    ((Except.error e : Res α) >>= f) = Except.error e := rfl

theorem strContains_append (a sub : String) : strContains (a ++ sub) sub :=
  ⟨a, "", by simp⟩

/-! ## Claims -/

/-- C1: an `io_type` outside the three supported neo readers makes `load_data`
raise a `ValueError` whose message contains the invalid value (once the three
eagerly built readers exist), and a clustering `method` outside
gmm/dbscan/agglomerative makes `cluster_spikes` raise a `ValueError` whose
message contains the invalid value. -/
theorem unsupported_selector_raises_valueerror :
    (∀ (env : Env) (file_path io_type : String) (a b c : Reader),
        io_type ∉ ["NeuralynxIO", "BlackrockIO", "NixIO"] →
        env.neuralynx_io file_path = Except.ok a →
        env.blackrock_io file_path = Except.ok b →
        env.nix_io file_path = Except.ok c →
        ∃ m, load_data env file_path io_type = Except.error ⟨"ValueError", m⟩ ∧
          strContains m io_type) ∧
    (∀ (env : Env) (features : FeatureMatrix) (method : String) (kwargs : KwArgs),
        method ∉ ["gmm", "dbscan", "agglomerative"] →
        ∃ m, cluster_spikes env features method kwargs =
            Except.error ⟨"ValueError", m⟩ ∧
          strContains m method) := by
  constructor
  · intro env file_path io_type a b c hmem h1 h2 h3
    simp only [List.mem_cons, List.not_mem_nil, or_false, not_or] at hmem
    obtain ⟨n1, n2, n3⟩ := hmem
    have e1 : (io_type == "NeuralynxIO") = false := beq_eq_false_iff_ne.mpr n1
    have e2 : (io_type == "BlackrockIO") = false := beq_eq_false_iff_ne.mpr n2
    have e3 : (io_type == "NixIO") = false := beq_eq_false_iff_ne.mpr n3
    refine ⟨"Unsupported IO type: " ++ io_type, ?_, strContains_append _ _⟩
    simp only [load_data, h1, h2, h3, res_bind_ok, List.lookup, e1, e2, e3]
  · intro env features method kwargs hmem
    simp only [List.mem_cons, List.not_mem_nil, or_false, not_or] at hmem
    obtain ⟨n1, n2, n3⟩ := hmem
    have e1 : (method == "gmm") = false := beq_eq_false_iff_ne.mpr n1
    have e2 : (method == "dbscan") = false := beq_eq_false_iff_ne.mpr n2
    have e3 : (method == "agglomerative") = false := beq_eq_false_iff_ne.mpr n3
    refine ⟨"Unsupported clustering method: " ++ method, ?_, strContains_append _ _⟩
    simp only [cluster_spikes, e1, e2, e3, Bool.false_eq_true, if_false]

/-- Witness for C1 at concrete invalid selectors. -/
theorem unsupported_selector_raises_valueerror_witness :
    (∃ m, load_data benignEnv "data/sample_data" "SpikeGLX" =
        Except.error ⟨"ValueError", m⟩ ∧ strContains m "SpikeGLX") ∧
    (∃ m, cluster_spikes benignEnv [[0, 0]] "kmeans" [] =
        Except.error ⟨"ValueError", m⟩ ∧ strContains m "kmeans") :=
  ⟨unsupported_selector_raises_valueerror.1 benignEnv "data/sample_data" "SpikeGLX"
      ⟨"NeuralynxIO", "data/sample_data"⟩ ⟨"BlackrockIO", "data/sample_data"⟩
      ⟨"NixIO", "data/sample_data"⟩ (by decide) rfl rfl rfl,
   unsupported_selector_raises_valueerror.2 benignEnv [[0, 0]] "kmeans" []
      (by decide)⟩

/-- C2 counterexample: the example-usage chain is not the spec's six-stage
linear chain — it has a seventh stage, `postprocess_sorting`, and two stages
consume more than the previous stage's return value. -/
theorem pipeline_not_six_stage_linear_chain :
    ¬ specLinearPipeline pipelineStages := by
  intro h
  exact absurd h.1 (by decide)

/-- C2 amended: the example-usage chain is seven sequential calls —
load_data, preprocess_data, sort_spikes, postprocess_sorting,
extract_features, cluster_spikes, plot_cluster_features — whose dataflow is
sequential (each call consumes only values produced earlier); every stage
takes exactly the previous stage's return value as its sole input except
postprocess_sorting (which also reuses the preprocessed recording) and
plot_cluster_features (which takes both the features and the labels), so the
fully linear six-stage handoff of the spec fails. -/
theorem pipeline_seven_stage_sequential :
    pipelineStages.map Stage.name =
      ["load_data", "preprocess_data", "sort_spikes", "postprocess_sorting",
       "extract_features", "cluster_spikes", "plot_cluster_features"] ∧
    seqDataflow pipelineStages ["example_file_path"] = true ∧
    handoffExcept ["postprocess_sorting", "plot_cluster_features"]
      pipelineStages = true ∧
    (∀ s ∈ pipelineStages,
        s.name = "postprocess_sorting" ∨ s.name = "plot_cluster_features" ∨
        s.inputs.length = 1) ∧
    linearHandoff pipelineStages = false := by
  refine ⟨by decide, by decide, by decide, ?_, by decide⟩
  decide

/-- C5: the `io_types` dict makes `load_data` invoke all three neo
constructors eagerly, before the `io_type` selector is consulted: a failure
of any of the three constructors propagates for every `io_type` — valid or
invalid — so the `Unsupported IO type` ValueError is reachable only when all
three constructions succeed, and even a valid selection invokes the two
unrelated constructors. -/
theorem load_data_constructors_eager :
    (∀ (env : Env) (file_path io_type : String) (e : PyErr),
        env.neuralynx_io file_path = Except.error e →
        load_data env file_path io_type = Except.error e) ∧
    (∀ (env : Env) (file_path io_type : String) (a : Reader) (e : PyErr),
        env.neuralynx_io file_path = Except.ok a →
        env.blackrock_io file_path = Except.error e →
        load_data env file_path io_type = Except.error e) ∧
    (∀ (env : Env) (file_path io_type : String) (a b : Reader) (e : PyErr),
        env.neuralynx_io file_path = Except.ok a →
        env.blackrock_io file_path = Except.ok b →
        env.nix_io file_path = Except.error e →
        load_data env file_path io_type = Except.error e) := by
  refine ⟨?_, ?_, ?_⟩
  · intro env file_path io_type e h1
    simp only [load_data, h1, res_bind_err]
  · intro env file_path io_type a e h1 h2
    simp only [load_data, h1, h2, res_bind_ok, res_bind_err]
  · intro env file_path io_type a b e h1 h2 h3
    simp only [load_data, h1, h2, h3, res_bind_ok, res_bind_err]

/-- Witness for C5: a failing Blackrock constructor aborts `load_data` even
for the valid selection `'NeuralynxIO'`, and failing constructors pre-empt the
ValueError for the invalid selection `'SpikeGLX'`. -/
theorem load_data_constructors_eager_witness :
    load_data { benignEnv with
        blackrock_io := fun _ => Except.error ⟨"OSError", "bad blackrock file"⟩ }
      "data/sample_data" "NeuralynxIO" =
        Except.error ⟨"OSError", "bad blackrock file"⟩ ∧
    load_data { benignEnv with
        neuralynx_io := fun _ => Except.error ⟨"OSError", "bad neuralynx dir"⟩ }
      "data/sample_data" "SpikeGLX" =
        Except.error ⟨"OSError", "bad neuralynx dir"⟩ ∧
    load_data { benignEnv with
        nix_io := fun _ => Except.error ⟨"OSError", "bad nix file"⟩ }
      "data/sample_data" "SpikeGLX" =
        Except.error ⟨"OSError", "bad nix file"⟩ :=
  ⟨load_data_constructors_eager.2.1 _ "data/sample_data" "NeuralynxIO"
      ⟨"NeuralynxIO", "data/sample_data"⟩ ⟨"OSError", "bad blackrock file"⟩ rfl rfl,
   load_data_constructors_eager.1 _ "data/sample_data" "SpikeGLX"
      ⟨"OSError", "bad neuralynx dir"⟩ rfl,
   load_data_constructors_eager.2.2 _ "data/sample_data" "SpikeGLX"
      ⟨"NeuralynxIO", "data/sample_data"⟩ ⟨"BlackrockIO", "data/sample_data"⟩
      ⟨"OSError", "bad nix file"⟩ rfl rfl rfl⟩

/-- C6: under the observing environment, `preprocess_data` hands
`freq_min`/`freq_max` to the bandpass filter, the given `notch_freq` to the
notch filter (only when truthy), and `common_ref_type` to the common
reference, all unchanged — the recorded calls carry exactly the given
arguments. -/
theorem preprocess_data_forwards_parameters :
    ∀ (r : Recording) (freq_min freq_max : Rat) (notch_freq : Option Rat)
      (common_ref_type : String),
      preprocess_data benignEnv r freq_min freq_max notch_freq common_ref_type =
        Except.ok ⟨r.rid,
          r.log ++ [Call.bandpass freq_min freq_max] ++
          (match notch_freq with
            | some q => if q = 0 then [] else [Call.notch q]
            | none => []) ++
          [Call.common_ref common_ref_type]⟩ := by
  intro r freq_min freq_max notch_freq common_ref_type
  match notch_freq with
  | none => simp [preprocess_data, numTruthy, benignEnv]
  | some q =>
      by_cases hq : q = 0 <;>
        simp [preprocess_data, numTruthy, benignEnv, hq]

/-- C7 counterexample: `custom_params = {}` is a supplied dictionary, yet
`run_sorter` is invoked with the sorter's (non-empty) default parameters, not
with the entries of `custom_params`. -/
theorem sort_spikes_empty_dict_not_forwarded :
    sort_spikes benignEnv ⟨7, []⟩ "kilosort2" (some []) =
      Except.ok ⟨0, [Call.run_sorter "kilosort2" "sorting_output" 7
        [("kilosort2.default", 1)]]⟩ ∧
    [("kilosort2.default", (1 : Rat))] ≠ ([] : Params) := by
  exact ⟨rfl, by decide⟩

/-- C7 amended: for every non-empty `custom_params`, `run_sorter` receives
exactly the given sorter name, the given recording and the entries of
`custom_params`; when `custom_params` is `None` — or falsy, i.e. the empty
dict — the sorter's default parameters are used instead. -/
theorem sort_spikes_forwards_parameters :
    (∀ (r : Recording) (sorter_name : String) (ps : Params), ps ≠ [] →
        sort_spikes benignEnv r sorter_name (some ps) =
          Except.ok ⟨0, [Call.run_sorter sorter_name "sorting_output" r.rid ps]⟩) ∧
    (∀ (r : Recording) (sorter_name : String),
        sort_spikes benignEnv r sorter_name none =
          Except.ok ⟨0, [Call.run_sorter sorter_name "sorting_output" r.rid
            [(sorter_name ++ ".default", 1)]]⟩) ∧
    (∀ (r : Recording) (sorter_name : String),
        sort_spikes benignEnv r sorter_name (some []) =
          sort_spikes benignEnv r sorter_name none) := by
  refine ⟨?_, fun r sorter_name => rfl, fun r sorter_name => rfl⟩
  intro r sorter_name ps hps
  match ps with
  | [] => exact absurd rfl hps
  | p :: rest => rfl

/-- Witness for C7 (amended): a concrete non-empty parameter dict reaches
`run_sorter` verbatim. -/
theorem sort_spikes_forwards_parameters_witness :
    sort_spikes benignEnv ⟨3, []⟩ "mountainsort4" (some [("detect_threshold", 5)]) =
      Except.ok ⟨0, [Call.run_sorter "mountainsort4" "sorting_output" 3
        [("detect_threshold", 5)]]⟩ :=
  sort_spikes_forwards_parameters.1 ⟨3, []⟩ "mountainsort4"
    [("detect_threshold", 5)] (by decide)

/-- C10: the fallbacks are decided by Python truthiness, not comparison with
`None`: an empty `custom_params` dict behaves exactly like `None` in
`sort_spikes` (defaults are used, not an empty parameter set), and
`notch_freq = 0` behaves exactly like `None` in `preprocess_data` (the notch
filter is skipped). -/
theorem falsy_arguments_use_fallback :
    (∀ (env : Env) (recording : Recording) (sorter_name : String),
        sort_spikes env recording sorter_name (some []) =
          sort_spikes env recording sorter_name none) ∧
    (∀ (env : Env) (recording : Recording) (freq_min freq_max : Rat)
        (common_ref_type : String),
        preprocess_data env recording freq_min freq_max (some 0) common_ref_type =
          preprocess_data env recording freq_min freq_max none common_ref_type) ∧
    sort_spikes benignEnv ⟨5, []⟩ "kilosort2" (some []) =
      Except.ok ⟨0, [Call.run_sorter "kilosort2" "sorting_output" 5
        [("kilosort2.default", 1)]]⟩ :=
  ⟨fun _ _ _ => rfl, fun _ _ _ _ _ => rfl, rfl⟩

/-! ## Success-path helper lemmas, shared by several claims -/

theorem load_data_ok (env : Env) (fp t : String) (a b c reader : Reader)
    (blk : Block) (seg : Segment) (sig : AnalogSignal) (rec : Recording)
    (h1 : env.neuralynx_io fp = Except.ok a)
    (h2 : env.blackrock_io fp = Except.ok b)
    (h3 : env.nix_io fp = Except.ok c)
    (hl : ([("NeuralynxIO", a), ("BlackrockIO", b), ("NixIO", c)] :
        List (String × Reader)).lookup t = some reader)
    (h4 : env.read_block reader = Except.ok blk)
    (h5 : pyIndex blk.segments 0 = Except.ok seg)
    (h6 : pyIndex seg.analogsignals 0 = Except.ok sig)
    (h7 : env.neo_recording_extractor sig = Except.ok rec) :
    load_data env fp t = Except.ok rec := by
  simp only [load_data, h1, h2, h3, res_bind_ok, hl, h4, h5, h6, h7]

theorem preprocess_data_ok (env : Env) (r : Recording) (fmin fmax : Rat)
    (nf : Option Rat) (crt : String) (rbp rn rc : Recording)
    (h1 : env.bandpass_filter r fmin fmax = Except.ok rbp)
    (h2 : (if numTruthy nf then env.notch_filter rbp (nf.getD 0)
           else Except.ok rbp) = Except.ok rn)
    (h3 : env.common_reference rn crt = Except.ok rc) :
    preprocess_data env r fmin fmax nf crt = Except.ok rc := by
  simp only [preprocess_data, h1, res_bind_ok]
  by_cases hnf : numTruthy nf = true
  · rw [if_pos hnf] at h2 ⊢
    simp only [h2, res_bind_ok, h3]
  · rw [if_neg hnf] at h2 ⊢
    injection h2 with hh
    rw [← hh] at h3
    exact h3

theorem sort_spikes_ok (env : Env) (r : Recording) (name : String)
    (cp : Option Params) (ps : Params) (s : Sorting)
    (h1 : (if dictTruthy cp then Except.ok (cp.getD [])
           else env.get_default_params name) = Except.ok ps)
    (h2 : env.run_sorter name r "sorting_output" ps = Except.ok s) :
    sort_spikes env r name cp = Except.ok s := by
  simp only [sort_spikes, res_bind_ok]
  by_cases hc : dictTruthy cp = true
  · rw [if_pos hc] at h1 ⊢
    injection h1 with hh
    rw [hh]
    exact h2
  · rw [if_neg hc] at h1 ⊢
    simp only [h1, res_bind_ok]
    exact h2

theorem postprocess_sorting_ok (env : Env) (srt : Sorting) (rec : Recording)
    (w1 w2 w3 : WaveformExtractor)
    (h1 : env.we_create rec srt "waveforms" true = Except.ok w1)
    (h2 : env.we_set_params w1 (3/2 : Rat) (5/2 : Rat) = Except.ok w2)
    (h3 : env.we_run w2 = Except.ok w3) :
    postprocess_sorting env srt rec = Except.ok w3 := by
  simp only [postprocess_sorting, h1, h2, h3, res_bind_ok]

theorem extract_features_pca_ok (env : Env) (we : WaveformExtractor) (n : Nat)
    (w : Waveforms) (f : FeatureMatrix)
    (h1 : env.get_waveforms we = Except.ok w)
    (h2 : env.pca_fit_transform n (np_reshape_flat w) = Except.ok f) :
    extract_features env we "pca" n = Except.ok f := by
  simp only [extract_features, h1, res_bind_ok]
  rw [h2, if_pos (by decide : (("pca" == "pca") = true))]

theorem extract_features_nonpca_eq (env : Env) (we : WaveformExtractor)
    (method : String) (n : Nat) (w : Waveforms)
    (hm : method ≠ "pca")
    (h1 : env.get_waveforms we = Except.ok w) :
    extract_features env we method n =
      Except.ok (np_column_stack (w.map np_mean_abs_spike)
        (w.map (np_std_spike env))) := by
  have e : (method == "pca") = false := beq_eq_false_iff_ne.mpr hm
  simp only [extract_features, h1, res_bind_ok, e, Bool.false_eq_true, if_false]

theorem cluster_spikes_gmm_ok (env : Env) (feats : FeatureMatrix) (kw : KwArgs)
    (l : List Int)
    (h : env.gmm_fit_predict (kwGet kw "n_components" 3) feats = Except.ok l) :
    cluster_spikes env feats "gmm" kw = Except.ok l := by
  rw [← h]; rfl

theorem cluster_spikes_dbscan_ok (env : Env) (feats : FeatureMatrix) (kw : KwArgs)
    (l : List Int)
    (h : env.dbscan_fit_predict (kwGet kw "eps" (1/2)) (kwGet kw "min_samples" 5)
        feats = Except.ok l) :
    cluster_spikes env feats "dbscan" kw = Except.ok l := by
  rw [← h]; rfl

theorem cluster_spikes_agglomerative_ok (env : Env) (feats : FeatureMatrix)
    (kw : KwArgs) (l : List Int)
    (h : env.agglomerative_fit_predict (kwGet kw "n_clusters" 3) feats =
        Except.ok l) :
    cluster_spikes env feats "agglomerative" kw = Except.ok l := by
  rw [← h]; rfl

theorem plot_cluster_features_ok (env : Env) (feats : FeatureMatrix)
    (labels : List Int) (f1 f2 : Fig)
    (h1 : env.px_scatter (npCol feats 0) (npCol feats 1) labels = Except.ok f1)
    (h2 : env.update_layout f1 "Spike Clustering" "Feature 1" "Feature 2" =
        Except.ok f2)
    (h3 : env.fig_show f2 = Except.ok ()) :
    plot_cluster_features env feats labels = Except.ok () := by
  simp only [plot_cluster_features, h1, h2, res_bind_ok, h3]

theorem np_column_stack_row_length (a b : List Rat) :
    ∀ row ∈ np_column_stack a b, row.length = 2 := by
  induction a generalizing b with
  | nil => intro row h; simp [np_column_stack] at h
  | cons x xs ih =>
      intro row h
      match b with
      | [] => simp [np_column_stack] at h
      | y :: ys =>
          simp only [np_column_stack, List.zipWith_cons_cons, List.mem_cons] at h
          rcases h with h | h
          · simp [h]
          · exact ih ys row h

/-- C9: for every `method` other than `'pca'` — `'waveform'` or any
unrecognized string — `extract_features` raises no error (once the waveforms
fetch succeeds): it returns the two-column matrix whose first column is each
spike's mean absolute value and whose second column is each spike's standard
deviation; this selector has no unsupported-value check. -/
theorem extract_features_nonpca_no_validation :
    ∀ (env : Env) (we : WaveformExtractor) (method : String) (n : Nat)
      (w : Waveforms),
      method ≠ "pca" →
      env.get_waveforms we = Except.ok w →
      extract_features env we method n =
        Except.ok (np_column_stack (w.map np_mean_abs_spike)
          (w.map (np_std_spike env))) ∧
      ∀ row ∈ np_column_stack (w.map np_mean_abs_spike)
          (w.map (np_std_spike env)), row.length = 2 := by
  intro env we method n w hm h1
  exact ⟨extract_features_nonpca_eq env we method n w hm h1,
    np_column_stack_row_length _ _⟩

/-- Witness for C9 at `'waveform'` and at an arbitrary unrecognized string,
with the columns evaluated on concrete waveforms. -/
theorem extract_features_nonpca_no_validation_witness :
    (extract_features benignEnv ⟨0, []⟩ "waveform" 3 =
      Except.ok (np_column_stack
        (([[[1, 2], [3, 4]], [[0, 2], [0, 2]]] : Waveforms).map np_mean_abs_spike)
        (([[[1, 2], [3, 4]], [[0, 2], [0, 2]]] : Waveforms).map
          (np_std_spike benignEnv)))) ∧
    (extract_features benignEnv ⟨0, []⟩ "not_a_method" 3 =
      Except.ok (np_column_stack
        (([[[1, 2], [3, 4]], [[0, 2], [0, 2]]] : Waveforms).map np_mean_abs_spike)
        (([[[1, 2], [3, 4]], [[0, 2], [0, 2]]] : Waveforms).map
          (np_std_spike benignEnv)))) ∧
    extract_features benignEnv ⟨0, []⟩ "waveform" 3 =
      Except.ok [[(5 : Rat)/2, (5 : Rat)/4], [1, 1]] :=
  ⟨(extract_features_nonpca_no_validation benignEnv ⟨0, []⟩ "waveform" 3
      [[[1, 2], [3, 4]], [[0, 2], [0, 2]]] (by decide) rfl).1,
   (extract_features_nonpca_no_validation benignEnv ⟨0, []⟩ "not_a_method" 3
      [[[1, 2], [3, 4]], [[0, 2], [0, 2]]] (by decide) rfl).1,
   by
    rw [(extract_features_nonpca_no_validation benignEnv ⟨0, []⟩ "waveform" 3
      [[[1, 2], [3, 4]], [[0, 2], [0, 2]]] (by decide) rfl).1]
    norm_num [np_column_stack, np_mean_abs_spike, np_std_spike, np_var_spike,
      benignEnv]⟩

/-- C8: every value a pipeline function returns is the unmodified result of an
external-library call — the loaded recording is exactly the
`NeoRecordingExtractor` result, the preprocessed recording exactly the
`common_reference` result, the sorting exactly the `run_sorter` result, the
waveform extractor exactly the object after `run()`, the features exactly the
`pca.fit_transform` (or `np.column_stack`) result, and the labels exactly the
chosen backend's `fit_predict` result. -/
theorem pipeline_returns_external_values :
    (∀ (env : Env) (fp t : String) (a b c reader : Reader) (blk : Block)
        (seg : Segment) (sig : AnalogSignal) (rec : Recording),
        env.neuralynx_io fp = Except.ok a →
        env.blackrock_io fp = Except.ok b →
        env.nix_io fp = Except.ok c →
        ([("NeuralynxIO", a), ("BlackrockIO", b), ("NixIO", c)] :
            List (String × Reader)).lookup t = some reader →
        env.read_block reader = Except.ok blk →
        pyIndex blk.segments 0 = Except.ok seg →
        pyIndex seg.analogsignals 0 = Except.ok sig →
        env.neo_recording_extractor sig = Except.ok rec →
        load_data env fp t = Except.ok rec) ∧
    (∀ (env : Env) (r : Recording) (fmin fmax : Rat) (nf : Option Rat)
        (crt : String) (rbp rn rc : Recording),
        env.bandpass_filter r fmin fmax = Except.ok rbp →
        (if numTruthy nf then env.notch_filter rbp (nf.getD 0)
         else Except.ok rbp) = Except.ok rn →
        env.common_reference rn crt = Except.ok rc →
        preprocess_data env r fmin fmax nf crt = Except.ok rc) ∧
    (∀ (env : Env) (r : Recording) (name : String) (cp : Option Params)
        (ps : Params) (s : Sorting),
        (if dictTruthy cp then Except.ok (cp.getD [])
         else env.get_default_params name) = Except.ok ps →
        env.run_sorter name r "sorting_output" ps = Except.ok s →
        sort_spikes env r name cp = Except.ok s) ∧
    (∀ (env : Env) (srt : Sorting) (rec : Recording)
        (w1 w2 w3 : WaveformExtractor),
        env.we_create rec srt "waveforms" true = Except.ok w1 →
        env.we_set_params w1 (3/2 : Rat) (5/2 : Rat) = Except.ok w2 →
        env.we_run w2 = Except.ok w3 →
        postprocess_sorting env srt rec = Except.ok w3) ∧
    (∀ (env : Env) (we : WaveformExtractor) (n : Nat) (w : Waveforms)
        (f : FeatureMatrix),
        env.get_waveforms we = Except.ok w →
        env.pca_fit_transform n (np_reshape_flat w) = Except.ok f →
        extract_features env we "pca" n = Except.ok f) ∧
    (∀ (env : Env) (we : WaveformExtractor) (method : String) (n : Nat)
        (w : Waveforms),
        method ≠ "pca" →
        env.get_waveforms we = Except.ok w →
        extract_features env we method n =
          Except.ok (np_column_stack (w.map np_mean_abs_spike)
            (w.map (np_std_spike env)))) ∧
    (∀ (env : Env) (feats : FeatureMatrix) (kw : KwArgs) (l : List Int),
        env.gmm_fit_predict (kwGet kw "n_components" 3) feats = Except.ok l →
        cluster_spikes env feats "gmm" kw = Except.ok l) ∧
    (∀ (env : Env) (feats : FeatureMatrix) (kw : KwArgs) (l : List Int),
        env.dbscan_fit_predict (kwGet kw "eps" (1/2)) (kwGet kw "min_samples" 5)
            feats = Except.ok l →
        cluster_spikes env feats "dbscan" kw = Except.ok l) ∧
    (∀ (env : Env) (feats : FeatureMatrix) (kw : KwArgs) (l : List Int),
        env.agglomerative_fit_predict (kwGet kw "n_clusters" 3) feats =
            Except.ok l →
        cluster_spikes env feats "agglomerative" kw = Except.ok l) :=
  ⟨load_data_ok, preprocess_data_ok, sort_spikes_ok, postprocess_sorting_ok,
   extract_features_pca_ok, extract_features_nonpca_eq,
   cluster_spikes_gmm_ok, cluster_spikes_dbscan_ok,
   cluster_spikes_agglomerative_ok⟩

/-- Witness for C8: each clause instantiated at the benign environment. -/
theorem pipeline_returns_external_values_witness :
    load_data benignEnv "data/sample_data" "BlackrockIO" =
      Except.ok ⟨0, [Call.neo_extract ⟨0⟩]⟩ ∧
    preprocess_data benignEnv ⟨1, []⟩ 300 3000 none "median" =
      Except.ok ⟨1, [Call.bandpass 300 3000, Call.common_ref "median"]⟩ ∧
    sort_spikes benignEnv ⟨2, []⟩ "kilosort2" none =
      Except.ok ⟨0, [Call.run_sorter "kilosort2" "sorting_output" 2
        [("kilosort2.default", 1)]]⟩ ∧
    postprocess_sorting benignEnv ⟨0, []⟩ ⟨2, []⟩ =
      Except.ok ⟨0, [Call.we_create 2 0 "waveforms" true,
        Call.we_set_params (3/2) (5/2), Call.we_run]⟩ ∧
    extract_features benignEnv ⟨0, []⟩ "pca" 3 =
      Except.ok (np_reshape_flat [[[1, 2], [3, 4]], [[0, 2], [0, 2]]]) ∧
    extract_features benignEnv ⟨0, []⟩ "waveform" 2 =
      Except.ok (np_column_stack
        (([[[1, 2], [3, 4]], [[0, 2], [0, 2]]] : Waveforms).map np_mean_abs_spike)
        (([[[1, 2], [3, 4]], [[0, 2], [0, 2]]] : Waveforms).map
          (np_std_spike benignEnv))) ∧
    cluster_spikes benignEnv [[1, 1], [2, 2]] "gmm" [] = Except.ok [0, 0] ∧
    cluster_spikes benignEnv [[1, 1], [2, 2]] "dbscan" [] = Except.ok [0, 0] ∧
    cluster_spikes benignEnv [[1, 1], [2, 2]] "agglomerative" [] =
      Except.ok [0, 0] :=
  ⟨pipeline_returns_external_values.1 benignEnv "data/sample_data" "BlackrockIO"
      ⟨"NeuralynxIO", "data/sample_data"⟩ ⟨"BlackrockIO", "data/sample_data"⟩
      ⟨"NixIO", "data/sample_data"⟩ ⟨"BlackrockIO", "data/sample_data"⟩
      ⟨[⟨[⟨0⟩]⟩]⟩ ⟨[⟨0⟩]⟩ ⟨0⟩ ⟨0, [Call.neo_extract ⟨0⟩]⟩
      rfl rfl rfl rfl rfl rfl rfl rfl,
   pipeline_returns_external_values.2.1 benignEnv ⟨1, []⟩ 300 3000 none "median"
      ⟨1, [Call.bandpass 300 3000]⟩ ⟨1, [Call.bandpass 300 3000]⟩
      ⟨1, [Call.bandpass 300 3000, Call.common_ref "median"]⟩ rfl rfl rfl,
   pipeline_returns_external_values.2.2.1 benignEnv ⟨2, []⟩ "kilosort2" none
      [("kilosort2.default", 1)]
      ⟨0, [Call.run_sorter "kilosort2" "sorting_output" 2
        [("kilosort2.default", 1)]]⟩ rfl rfl,
   pipeline_returns_external_values.2.2.2.1 benignEnv ⟨0, []⟩ ⟨2, []⟩
      ⟨0, [Call.we_create 2 0 "waveforms" true]⟩
      ⟨0, [Call.we_create 2 0 "waveforms" true, Call.we_set_params (3/2) (5/2)]⟩
      ⟨0, [Call.we_create 2 0 "waveforms" true, Call.we_set_params (3/2) (5/2),
        Call.we_run]⟩ rfl rfl rfl,
   pipeline_returns_external_values.2.2.2.2.1 benignEnv ⟨0, []⟩ 3
      [[[1, 2], [3, 4]], [[0, 2], [0, 2]]]
      (np_reshape_flat [[[1, 2], [3, 4]], [[0, 2], [0, 2]]]) rfl rfl,
   pipeline_returns_external_values.2.2.2.2.2.1 benignEnv ⟨0, []⟩ "waveform" 2
      [[[1, 2], [3, 4]], [[0, 2], [0, 2]]] (by decide) rfl,
   pipeline_returns_external_values.2.2.2.2.2.2.1 benignEnv [[1, 1], [2, 2]] []
      [0, 0] rfl,
   pipeline_returns_external_values.2.2.2.2.2.2.2.1 benignEnv [[1, 1], [2, 2]] []
      [0, 0] rfl,
   pipeline_returns_external_values.2.2.2.2.2.2.2.2 benignEnv [[1, 1], [2, 2]] []
      [0, 0] rfl⟩

/-- C3 counterexample: two distinct functions each hold their own
unsupported-option validation check — under an environment whose external
calls all succeed, both `load_data` (on `io_type`) and `cluster_spikes` (on
`method`) raise a `ValueError` of their own, so the validating code path is
not unique. -/
theorem two_unsupported_option_checks :
    load_data benignEnv "data/sample_data" "OpenEphys" =
      Except.error ⟨"ValueError", "Unsupported IO type: OpenEphys"⟩ ∧
    cluster_spikes benignEnv [[0, 0]] "hdbscan" [] =
      Except.error ⟨"ValueError", "Unsupported clustering method: hdbscan"⟩ :=
  ⟨rfl, rfl⟩

/-- C3 amended: the code contains exactly two parameter-validation checks —
`load_data`'s `io_type` check and `cluster_spikes`'s `method` check — and the
five remaining functions contain no validation or failure-handling of their
own: whenever their external calls succeed they succeed. -/
theorem validation_checks_are_exactly_two :
    (load_data benignEnv "data/sample_data" "Intan" =
      Except.error ⟨"ValueError", "Unsupported IO type: Intan"⟩) ∧
    (cluster_spikes benignEnv [[1, 1]] "spectral" [] =
      Except.error ⟨"ValueError", "Unsupported clustering method: spectral"⟩) ∧
    (∀ (env : Env) (r : Recording) (fmin fmax : Rat) (nf : Option Rat)
        (crt : String) (rbp rn rc : Recording),
        env.bandpass_filter r fmin fmax = Except.ok rbp →
        (if numTruthy nf then env.notch_filter rbp (nf.getD 0)
         else Except.ok rbp) = Except.ok rn →
        env.common_reference rn crt = Except.ok rc →
        ∃ v, preprocess_data env r fmin fmax nf crt = Except.ok v) ∧
    (∀ (env : Env) (r : Recording) (name : String) (cp : Option Params)
        (ps : Params) (s : Sorting),
        (if dictTruthy cp then Except.ok (cp.getD [])
         else env.get_default_params name) = Except.ok ps →
        env.run_sorter name r "sorting_output" ps = Except.ok s →
        ∃ v, sort_spikes env r name cp = Except.ok v) ∧
    (∀ (env : Env) (srt : Sorting) (rec : Recording)
        (w1 w2 w3 : WaveformExtractor),
        env.we_create rec srt "waveforms" true = Except.ok w1 →
        env.we_set_params w1 (3/2 : Rat) (5/2 : Rat) = Except.ok w2 →
        env.we_run w2 = Except.ok w3 →
        ∃ v, postprocess_sorting env srt rec = Except.ok v) ∧
    (∀ (env : Env) (we : WaveformExtractor) (method : String) (n : Nat)
        (w : Waveforms) (f : FeatureMatrix),
        env.get_waveforms we = Except.ok w →
        env.pca_fit_transform n (np_reshape_flat w) = Except.ok f →
        ∃ v, extract_features env we method n = Except.ok v) ∧
    (∀ (env : Env) (feats : FeatureMatrix) (labels : List Int) (f1 f2 : Fig),
        env.px_scatter (npCol feats 0) (npCol feats 1) labels = Except.ok f1 →
        env.update_layout f1 "Spike Clustering" "Feature 1" "Feature 2" =
            Except.ok f2 →
        env.fig_show f2 = Except.ok () →
        plot_cluster_features env feats labels = Except.ok ()) := by
  refine ⟨rfl, rfl, ?_, ?_, ?_, ?_, plot_cluster_features_ok⟩
  · intro env r fmin fmax nf crt rbp rn rc h1 h2 h3
    exact ⟨rc, preprocess_data_ok env r fmin fmax nf crt rbp rn rc h1 h2 h3⟩
  · intro env r name cp ps s h1 h2
    exact ⟨s, sort_spikes_ok env r name cp ps s h1 h2⟩
  · intro env srt rec w1 w2 w3 h1 h2 h3
    exact ⟨w3, postprocess_sorting_ok env srt rec w1 w2 w3 h1 h2 h3⟩
  · intro env we method n w f h1 h2
    by_cases hm : method = "pca"
    · subst hm
      exact ⟨f, extract_features_pca_ok env we n w f h1 h2⟩
    · exact ⟨_, extract_features_nonpca_eq env we method n w hm h1⟩

/-- Witness for C3 (amended): the five no-own-failure clauses instantiated at
the benign environment. -/
theorem validation_checks_are_exactly_two_witness :
    (∃ v, preprocess_data benignEnv ⟨1, []⟩ 300 3000 none "median" =
      Except.ok v) ∧
    (∃ v, sort_spikes benignEnv ⟨2, []⟩ "kilosort2" none = Except.ok v) ∧
    (∃ v, postprocess_sorting benignEnv ⟨0, []⟩ ⟨2, []⟩ = Except.ok v) ∧
    (∃ v, extract_features benignEnv ⟨0, []⟩ "hdbscan" 3 = Except.ok v) ∧
    plot_cluster_features benignEnv [[1, 1], [2, 2]] [0, 0] = Except.ok () :=
  ⟨validation_checks_are_exactly_two.2.2.1 benignEnv ⟨1, []⟩ 300 3000 none
      "median" ⟨1, [Call.bandpass 300 3000]⟩ ⟨1, [Call.bandpass 300 3000]⟩
      ⟨1, [Call.bandpass 300 3000, Call.common_ref "median"]⟩ rfl rfl rfl,
   validation_checks_are_exactly_two.2.2.2.1 benignEnv ⟨2, []⟩ "kilosort2" none
      [("kilosort2.default", 1)]
      ⟨0, [Call.run_sorter "kilosort2" "sorting_output" 2
        [("kilosort2.default", 1)]]⟩ rfl rfl,
   validation_checks_are_exactly_two.2.2.2.2.1 benignEnv ⟨0, []⟩ ⟨2, []⟩
      ⟨0, [Call.we_create 2 0 "waveforms" true]⟩
      ⟨0, [Call.we_create 2 0 "waveforms" true, Call.we_set_params (3/2) (5/2)]⟩
      ⟨0, [Call.we_create 2 0 "waveforms" true, Call.we_set_params (3/2) (5/2),
        Call.we_run]⟩ rfl rfl rfl,
   validation_checks_are_exactly_two.2.2.2.2.2.1 benignEnv ⟨0, []⟩ "hdbscan" 3
      [[[1, 2], [3, 4]], [[0, 2], [0, 2]]]
      (np_reshape_flat [[[1, 2], [3, 4]], [[0, 2], [0, 2]]]) rfl rfl,
   validation_checks_are_exactly_two.2.2.2.2.2.2 benignEnv [[1, 1], [2, 2]]
      [0, 0] ⟨0⟩ ⟨0⟩ rfl rfl rfl⟩

/-- C4: beyond the two selector ValueErrors there is no exception handling at
all: an exception raised by any external-library call inside any of the seven
functions propagates to the caller as-is — clause groups, in order, for
`load_data` (three constructors, `read_block`, `NeoRecordingExtractor`),
`preprocess_data` (bandpass, notch, common reference), `sort_spikes`
(`get_default_params`, `run_sorter`), `postprocess_sorting` (`create`,
`set_params`, `run`), `extract_features` (`get_waveforms`,
`pca.fit_transform`), `cluster_spikes` (the three backends), and
`plot_cluster_features` (`px.scatter`, `update_layout`, `fig.show`). -/
theorem external_errors_propagate_unchanged :
    ((∀ (env : Env) (fp t : String) (e : PyErr),
        env.neuralynx_io fp = Except.error e →
        load_data env fp t = Except.error e) ∧
     (∀ (env : Env) (fp t : String) (a : Reader) (e : PyErr),
        env.neuralynx_io fp = Except.ok a →
        env.blackrock_io fp = Except.error e →
        load_data env fp t = Except.error e) ∧
     (∀ (env : Env) (fp t : String) (a b : Reader) (e : PyErr),
        env.neuralynx_io fp = Except.ok a →
        env.blackrock_io fp = Except.ok b →
        env.nix_io fp = Except.error e →
        load_data env fp t = Except.error e) ∧
     (∀ (env : Env) (fp t : String) (a b c reader : Reader) (e : PyErr),
        env.neuralynx_io fp = Except.ok a →
        env.blackrock_io fp = Except.ok b →
        env.nix_io fp = Except.ok c →
        ([("NeuralynxIO", a), ("BlackrockIO", b), ("NixIO", c)] :
            List (String × Reader)).lookup t = some reader →
        env.read_block reader = Except.error e →
        load_data env fp t = Except.error e) ∧
     (∀ (env : Env) (fp t : String) (a b c reader : Reader) (blk : Block)
        (seg : Segment) (sig : AnalogSignal) (e : PyErr),
        env.neuralynx_io fp = Except.ok a →
        env.blackrock_io fp = Except.ok b →
        env.nix_io fp = Except.ok c →
        ([("NeuralynxIO", a), ("BlackrockIO", b), ("NixIO", c)] :
            List (String × Reader)).lookup t = some reader →
        env.read_block reader = Except.ok blk →
        pyIndex blk.segments 0 = Except.ok seg →
        pyIndex seg.analogsignals 0 = Except.ok sig →
        env.neo_recording_extractor sig = Except.error e →
        load_data env fp t = Except.error e)) ∧
    ((∀ (env : Env) (r : Recording) (fmin fmax : Rat) (nf : Option Rat)
        (crt : String) (e : PyErr),
        env.bandpass_filter r fmin fmax = Except.error e →
        preprocess_data env r fmin fmax nf crt = Except.error e) ∧
     (∀ (env : Env) (r : Recording) (fmin fmax : Rat) (nf : Option Rat)
        (crt : String) (rbp : Recording) (e : PyErr),
        env.bandpass_filter r fmin fmax = Except.ok rbp →
        numTruthy nf = true →
        env.notch_filter rbp (nf.getD 0) = Except.error e →
        preprocess_data env r fmin fmax nf crt = Except.error e) ∧
     (∀ (env : Env) (r : Recording) (fmin fmax : Rat) (nf : Option Rat)
        (crt : String) (rbp rn : Recording) (e : PyErr),
        env.bandpass_filter r fmin fmax = Except.ok rbp →
        (if numTruthy nf then env.notch_filter rbp (nf.getD 0)
         else Except.ok rbp) = Except.ok rn →
        env.common_reference rn crt = Except.error e →
        preprocess_data env r fmin fmax nf crt = Except.error e)) ∧
    ((∀ (env : Env) (r : Recording) (name : String) (cp : Option Params)
        (e : PyErr),
        dictTruthy cp = false →
        env.get_default_params name = Except.error e →
        sort_spikes env r name cp = Except.error e) ∧
     (∀ (env : Env) (r : Recording) (name : String) (cp : Option Params)
        (ps : Params) (e : PyErr),
        (if dictTruthy cp then Except.ok (cp.getD [])
         else env.get_default_params name) = Except.ok ps →
        env.run_sorter name r "sorting_output" ps = Except.error e →
        sort_spikes env r name cp = Except.error e)) ∧
    ((∀ (env : Env) (srt : Sorting) (rec : Recording) (e : PyErr),
        env.we_create rec srt "waveforms" true = Except.error e →
        postprocess_sorting env srt rec = Except.error e) ∧
     (∀ (env : Env) (srt : Sorting) (rec : Recording)
        (w1 : WaveformExtractor) (e : PyErr),
        env.we_create rec srt "waveforms" true = Except.ok w1 →
        env.we_set_params w1 (3/2 : Rat) (5/2 : Rat) = Except.error e →
        postprocess_sorting env srt rec = Except.error e) ∧
     (∀ (env : Env) (srt : Sorting) (rec : Recording)
        (w1 w2 : WaveformExtractor) (e : PyErr),
        env.we_create rec srt "waveforms" true = Except.ok w1 →
        env.we_set_params w1 (3/2 : Rat) (5/2 : Rat) = Except.ok w2 →
        env.we_run w2 = Except.error e →
        postprocess_sorting env srt rec = Except.error e)) ∧
    ((∀ (env : Env) (we : WaveformExtractor) (method : String) (n : Nat)
        (e : PyErr),
        env.get_waveforms we = Except.error e →
        extract_features env we method n = Except.error e) ∧
     (∀ (env : Env) (we : WaveformExtractor) (n : Nat) (w : Waveforms)
        (e : PyErr),
        env.get_waveforms we = Except.ok w →
        env.pca_fit_transform n (np_reshape_flat w) = Except.error e →
        extract_features env we "pca" n = Except.error e)) ∧
    ((∀ (env : Env) (feats : FeatureMatrix) (kw : KwArgs) (e : PyErr),
        env.gmm_fit_predict (kwGet kw "n_components" 3) feats =
            Except.error e →
        cluster_spikes env feats "gmm" kw = Except.error e) ∧
     (∀ (env : Env) (feats : FeatureMatrix) (kw : KwArgs) (e : PyErr),
        env.dbscan_fit_predict (kwGet kw "eps" (1/2))
            (kwGet kw "min_samples" 5) feats = Except.error e →
        cluster_spikes env feats "dbscan" kw = Except.error e) ∧
     (∀ (env : Env) (feats : FeatureMatrix) (kw : KwArgs) (e : PyErr),
        env.agglomerative_fit_predict (kwGet kw "n_clusters" 3) feats =
            Except.error e →
        cluster_spikes env feats "agglomerative" kw = Except.error e)) ∧
    ((∀ (env : Env) (feats : FeatureMatrix) (labels : List Int) (e : PyErr),
        env.px_scatter (npCol feats 0) (npCol feats 1) labels =
            Except.error e →
        plot_cluster_features env feats labels = Except.error e) ∧
     (∀ (env : Env) (feats : FeatureMatrix) (labels : List Int) (f1 : Fig)
        (e : PyErr),
        env.px_scatter (npCol feats 0) (npCol feats 1) labels = Except.ok f1 →
        env.update_layout f1 "Spike Clustering" "Feature 1" "Feature 2" =
            Except.error e →
        plot_cluster_features env feats labels = Except.error e) ∧
     (∀ (env : Env) (feats : FeatureMatrix) (labels : List Int) (f1 f2 : Fig)
        (e : PyErr),
        env.px_scatter (npCol feats 0) (npCol feats 1) labels = Except.ok f1 →
        env.update_layout f1 "Spike Clustering" "Feature 1" "Feature 2" =
            Except.ok f2 →
        env.fig_show f2 = Except.error e →
        plot_cluster_features env feats labels = Except.error e)) := by
  refine ⟨⟨?_, ?_, ?_, ?_, ?_⟩, ⟨?_, ?_, ?_⟩, ⟨?_, ?_⟩, ⟨?_, ?_, ?_⟩,
    ⟨?_, ?_⟩, ⟨?_, ?_, ?_⟩, ⟨?_, ?_, ?_⟩⟩
  · intro env fp t e h1
    simp only [load_data, h1, res_bind_err]
  · intro env fp t a e h1 h2
    simp only [load_data, h1, h2, res_bind_ok, res_bind_err]
  · intro env fp t a b e h1 h2 h3
    simp only [load_data, h1, h2, h3, res_bind_ok, res_bind_err]
  · intro env fp t a b c reader e h1 h2 h3 hl h4
    simp only [load_data, h1, h2, h3, res_bind_ok, hl, h4, res_bind_err]
  · intro env fp t a b c reader blk seg sig e h1 h2 h3 hl h4 h5 h6 h7
    simp only [load_data, h1, h2, h3, res_bind_ok, hl, h4, h5, h6, h7,
      res_bind_err]
  · intro env r fmin fmax nf crt e h1
    simp only [preprocess_data, h1, res_bind_err]
  · intro env r fmin fmax nf crt rbp e h1 hnf h2
    simp only [preprocess_data, h1, res_bind_ok]
    rw [if_pos hnf]
    simp only [h2, res_bind_err]
  · intro env r fmin fmax nf crt rbp rn e h1 h2 h3
    simp only [preprocess_data, h1, res_bind_ok]
    by_cases hnf : numTruthy nf = true
    · rw [if_pos hnf] at h2 ⊢
      simp only [h2, res_bind_ok, h3]
    · rw [if_neg hnf] at h2 ⊢
      injection h2 with hh
      rw [← hh] at h3
      exact h3
  · intro env r name cp e hc h1
    simp only [sort_spikes, hc, Bool.false_eq_true, if_false, h1,
      res_bind_err]
  · intro env r name cp ps e h1 h2
    simp only [sort_spikes, res_bind_ok]
    by_cases hc : dictTruthy cp = true
    · rw [if_pos hc] at h1 ⊢
      injection h1 with hh
      rw [hh]
      exact h2
    · rw [if_neg hc] at h1 ⊢
      simp only [h1, res_bind_ok]
      exact h2
  · intro env srt rec e h1
    simp only [postprocess_sorting, h1, res_bind_err]
  · intro env srt rec w1 e h1 h2
    simp only [postprocess_sorting, h1, h2, res_bind_ok, res_bind_err]
  · intro env srt rec w1 w2 e h1 h2 h3
    simp only [postprocess_sorting, h1, h2, h3, res_bind_ok, res_bind_err]
  · intro env we method n e h1
    simp only [extract_features, h1, res_bind_err]
  · intro env we n w e h1 h2
    simp only [extract_features, h1, res_bind_ok]
    rw [h2, if_pos (by decide : (("pca" == "pca") = true))]
  · intro env feats kw e h
    rw [← h]; rfl
  · intro env feats kw e h
    rw [← h]; rfl
  · intro env feats kw e h
    rw [← h]; rfl
  · intro env feats labels e h1
    simp only [plot_cluster_features, h1, res_bind_err]
  · intro env feats labels f1 e h1 h2
    simp only [plot_cluster_features, h1, h2, res_bind_ok, res_bind_err]
  · intro env feats labels f1 f2 e h1 h2 h3
    simp only [plot_cluster_features, h1, h2, h3, res_bind_ok, res_bind_err]

/-- Witness for C4: every clause instantiated with a concrete environment in
which exactly the named external call raises. -/
theorem external_errors_propagate_unchanged_witness :
    load_data { benignEnv with neuralynx_io := fun _ => Except.error boom }
      "p" "NeuralynxIO" = Except.error boom ∧
    load_data { benignEnv with blackrock_io := fun _ => Except.error boom }
      "p" "NeuralynxIO" = Except.error boom ∧
    load_data { benignEnv with nix_io := fun _ => Except.error boom }
      "p" "NeuralynxIO" = Except.error boom ∧
    load_data { benignEnv with read_block := fun _ => Except.error boom }
      "p" "NeuralynxIO" = Except.error boom ∧
    load_data { benignEnv with
        neo_recording_extractor := fun _ => Except.error boom }
      "p" "NeuralynxIO" = Except.error boom ∧
    preprocess_data { benignEnv with
        bandpass_filter := fun _ _ _ => Except.error boom }
      ⟨1, []⟩ 300 3000 none "median" = Except.error boom ∧
    preprocess_data { benignEnv with
        notch_filter := fun _ _ => Except.error boom }
      ⟨1, []⟩ 300 3000 (some 50) "median" = Except.error boom ∧
    preprocess_data { benignEnv with
        common_reference := fun _ _ => Except.error boom }
      ⟨1, []⟩ 300 3000 none "median" = Except.error boom ∧
    sort_spikes { benignEnv with
        get_default_params := fun _ => Except.error boom }
      ⟨2, []⟩ "kilosort2" none = Except.error boom ∧
    sort_spikes { benignEnv with
        run_sorter := fun _ _ _ _ => Except.error boom }
      ⟨2, []⟩ "kilosort2" none = Except.error boom ∧
    postprocess_sorting { benignEnv with
        we_create := fun _ _ _ _ => Except.error boom }
      ⟨0, []⟩ ⟨2, []⟩ = Except.error boom ∧
    postprocess_sorting { benignEnv with
        we_set_params := fun _ _ _ => Except.error boom }
      ⟨0, []⟩ ⟨2, []⟩ = Except.error boom ∧
    postprocess_sorting { benignEnv with we_run := fun _ => Except.error boom }
      ⟨0, []⟩ ⟨2, []⟩ = Except.error boom ∧
    extract_features { benignEnv with
        get_waveforms := fun _ => Except.error boom }
      ⟨0, []⟩ "waveform" 3 = Except.error boom ∧
    extract_features { benignEnv with
        pca_fit_transform := fun _ _ => Except.error boom }
      ⟨0, []⟩ "pca" 3 = Except.error boom ∧
    cluster_spikes { benignEnv with
        gmm_fit_predict := fun _ _ => Except.error boom }
      [[1, 1]] "gmm" [] = Except.error boom ∧
    cluster_spikes { benignEnv with
        dbscan_fit_predict := fun _ _ _ => Except.error boom }
      [[1, 1]] "dbscan" [] = Except.error boom ∧
    cluster_spikes { benignEnv with
        agglomerative_fit_predict := fun _ _ => Except.error boom }
      [[1, 1]] "agglomerative" [] = Except.error boom ∧
    plot_cluster_features { benignEnv with
        px_scatter := fun _ _ _ => Except.error boom }
      [[1, 1]] [0] = Except.error boom ∧
    plot_cluster_features { benignEnv with
        update_layout := fun _ _ _ _ => Except.error boom }
      [[1, 1]] [0] = Except.error boom ∧
    plot_cluster_features { benignEnv with fig_show := fun _ => Except.error boom }
      [[1, 1]] [0] = Except.error boom := by
  refine ⟨?_, ?_, ?_, ?_, ?_, ?_, ?_, ?_, ?_, ?_, ?_, ?_, ?_, ?_, ?_, ?_, ?_,
    ?_, ?_, ?_, ?_⟩
  · exact external_errors_propagate_unchanged.1.1 _ "p" "NeuralynxIO" boom rfl
  · exact external_errors_propagate_unchanged.1.2.1 _ "p" "NeuralynxIO"
      ⟨"NeuralynxIO", "p"⟩ boom rfl rfl
  · exact external_errors_propagate_unchanged.1.2.2.1 _ "p" "NeuralynxIO"
      ⟨"NeuralynxIO", "p"⟩ ⟨"BlackrockIO", "p"⟩ boom rfl rfl rfl
  · exact external_errors_propagate_unchanged.1.2.2.2.1 _ "p" "NeuralynxIO"
      ⟨"NeuralynxIO", "p"⟩ ⟨"BlackrockIO", "p"⟩ ⟨"NixIO", "p"⟩
      ⟨"NeuralynxIO", "p"⟩ boom rfl rfl rfl rfl rfl
  · exact external_errors_propagate_unchanged.1.2.2.2.2 _ "p" "NeuralynxIO"
      ⟨"NeuralynxIO", "p"⟩ ⟨"BlackrockIO", "p"⟩ ⟨"NixIO", "p"⟩
      ⟨"NeuralynxIO", "p"⟩ ⟨[⟨[⟨0⟩]⟩]⟩ ⟨[⟨0⟩]⟩ ⟨0⟩ boom
      rfl rfl rfl rfl rfl rfl rfl rfl
  · exact external_errors_propagate_unchanged.2.1.1 _ ⟨1, []⟩ 300 3000 none
      "median" boom rfl
  · exact external_errors_propagate_unchanged.2.1.2.1 _ ⟨1, []⟩ 300 3000
      (some 50) "median" ⟨1, [Call.bandpass 300 3000]⟩ boom rfl rfl rfl
  · exact external_errors_propagate_unchanged.2.1.2.2 _ ⟨1, []⟩ 300 3000 none
      "median" ⟨1, [Call.bandpass 300 3000]⟩ ⟨1, [Call.bandpass 300 3000]⟩
      boom rfl rfl rfl
  · exact external_errors_propagate_unchanged.2.2.1.1 _ ⟨2, []⟩ "kilosort2"
      none boom rfl rfl
  · exact external_errors_propagate_unchanged.2.2.1.2 _ ⟨2, []⟩ "kilosort2"
      none [("kilosort2.default", 1)] boom rfl rfl
  · exact external_errors_propagate_unchanged.2.2.2.1.1 _ ⟨0, []⟩ ⟨2, []⟩
      boom rfl
  · exact external_errors_propagate_unchanged.2.2.2.1.2.1 _ ⟨0, []⟩ ⟨2, []⟩
      ⟨0, [Call.we_create 2 0 "waveforms" true]⟩ boom rfl rfl
  · exact external_errors_propagate_unchanged.2.2.2.1.2.2 _ ⟨0, []⟩ ⟨2, []⟩
      ⟨0, [Call.we_create 2 0 "waveforms" true]⟩
      ⟨0, [Call.we_create 2 0 "waveforms" true,
        Call.we_set_params (3/2) (5/2)]⟩ boom rfl rfl rfl
  · exact external_errors_propagate_unchanged.2.2.2.2.1.1 _ ⟨0, []⟩ "waveform"
      3 boom rfl
  · exact external_errors_propagate_unchanged.2.2.2.2.1.2 _ ⟨0, []⟩ 3
      [[[1, 2], [3, 4]], [[0, 2], [0, 2]]] boom rfl rfl
  · exact external_errors_propagate_unchanged.2.2.2.2.2.1.1 _ [[1, 1]] []
      boom rfl
  · exact external_errors_propagate_unchanged.2.2.2.2.2.1.2.1 _ [[1, 1]] []
      boom rfl
  · exact external_errors_propagate_unchanged.2.2.2.2.2.1.2.2 _ [[1, 1]] []
      boom rfl
  · exact external_errors_propagate_unchanged.2.2.2.2.2.2.1 _ [[1, 1]] [0]
      boom rfl
  · exact external_errors_propagate_unchanged.2.2.2.2.2.2.2.1 _ [[1, 1]] [0]
      ⟨0⟩ boom rfl rfl
  · exact external_errors_propagate_unchanged.2.2.2.2.2.2.2.2 _ [[1, 1]] [0]
      ⟨0⟩ ⟨0⟩ boom rfl rfl rfl
